import Mathlib

/-!
Shallow embedding of `src/cctvserver.py`, a mock CCTV camera HTTP server
built on Flask and Pillow.  The image library (Pillow) and the HTTP layer
(Flask) are external collaborators; we model exactly the calls the program
makes into them.  Drawing calls are recorded as a list of draw operations on
a frame; JPEG encoding is modelled as an injective wrapper around the frame;
the wall clock and the availability of font resources are inputs in an
environment record; Python's `random` module is modelled as a stream of
naturals consumed by `randint`.
-/

/-- The random source (`random` module): an infinite stream of naturals and a
position.  Each `randint` call consumes one stream element. -/
structure RNG where
  stream : Nat → Nat
  pos : Nat

/-- `random.randint(lo, hi)`: draws uniformly from the inclusive range
`[lo, hi]`; modelled as `lo + s % (hi - lo + 1)`, which lands in `[lo, hi]`
whenever `lo ≤ hi`. -/
def randint (lo hi : Nat) (g : RNG) : Nat × RNG :=
  (lo + g.stream g.pos % (hi - lo + 1), ⟨g.stream, g.pos + 1⟩)

/-- A loaded font handle (`PIL.ImageFont` object).  Its content is irrelevant
to the claims; only whether loading succeeds matters. -/
structure Font where
  id : Nat
deriving DecidableEq, Repr

/-- One drawing call made on a `PIL.ImageDraw` object. -/
inductive DrawOp where
  /-- `draw.line([(x1,y1),(x2,y2)], fill=..., width=...)` -/
  | line (x1 y1 x2 y2 : Nat) (fill : String) (lineWidth : Nat)
  /-- `draw.rectangle([x0,y0,x1,y1], fill=..., outline=...)` -/
  | rectangle (x0 y0 x1 y1 : Nat) (fill : Nat × Nat × Nat) (outline : String)
  /-- `draw.text((x,y), s, fill=..., font=...)` -/
  | text (x y : Nat) (s : String) (fill : String) (font : Font)
  /-- `draw.ellipse([x0,y0,x1,y1], fill=...)` -/
  | ellipse (x0 y0 x1 y1 : Nat) (fill : String)
deriving DecidableEq, Repr

/-- An in-memory raster image under construction (`PIL.Image` plus its
`ImageDraw`): its dimensions, background fill, and the drawing calls applied
so far, in order. -/
structure Frame where
  width : Nat
  height : Nat
  background : String
  ops : List DrawOp
deriving DecidableEq, Repr

/-- The environment of one `create_test_image` call: whether font resources
can be loaded, whether JPEG encoding succeeds, and the wall-clock strings
`datetime.now()` would format. -/
structure Env where
  fontsAvailable : Bool
  jpegEncodeOk : Bool
  clock : String
  isoClock : String

/-- `PIL.ImageFont.load_default()`: returns a font handle, or raises when
font resources are unavailable. -/
def load_default (env : Env) : Except String Font :=
  if env.fontsAvailable then .ok ⟨0⟩ else .error "font resources unavailable"

/-- `draw.text(pos, s, fill, font)`.  Pillow's `ImageDraw.text`, when handed
`font=None`, internally calls `self.getfont()`, which loads the default font
via `ImageFont.load_default()`; so with no font supplied the call itself
raises exactly when font resources are unavailable. -/
def drawText (env : Env) (f : Frame) (x y : Nat) (s fill : String)
    (font : Option Font) : Except String Frame :=
  match font with
  | some ft => .ok { f with ops := f.ops ++ [DrawOp.text x y s fill ft] }
  | none =>
    match load_default env with
    | .ok ft => .ok { f with ops := f.ops ++ [DrawOp.text x y s fill ft] }
    | .error e => .error e

/-- Python `range(start, stop, step)` for `step > 0`, as a list. -/
def pyRange (start stop step : Nat) : List Nat :=
  (List.range ((stop - start + step - 1) / step)).map (fun i => start + i * step)

/-- The grid pattern of `create_test_image`: vertical lines every 50px, then
horizontal lines every 50px, gray, 1px wide. -/
def gridOps (width height : Nat) : List DrawOp :=
  (pyRange 0 width 50).map (fun x => DrawOp.line x 0 x height "gray" 1) ++
  (pyRange 0 height 50).map (fun y => DrawOp.line 0 y width y "gray" 1)

/-- One iteration of the "motion rectangle" loop: draws seven `randint`
values (x, y, w, h, and the three colour channels) and appends one filled,
white-outlined rectangle `[x, y, x+w, y+h]`. -/
def drawMotionRect (width height : Nat) (f : Frame) (g : RNG) : Frame × RNG :=
  let (x, g) := randint 0 (width - 100) g
  let (y, g) := randint 0 (height - 100) g
  let (w, g) := randint 30 100 g
  let (h, g) := randint 30 100 g
  let (r, g) := randint 100 255 g
  let (gr, g) := randint 100 255 g
  let (b, g) := randint 100 255 g
  ({ f with ops := f.ops ++ [DrawOp.rectangle x y (x + w) (y + h) (r, gr, b) "white"] }, g)

/-- The `for _ in range(3)` rectangle loop, generalised over the count. -/
def drawMotionRects (width height : Nat) : Nat → Frame → RNG → Frame × RNG
  | 0, f, g => (f, g)
  | n + 1, f, g =>
    let (f', g') := drawMotionRect width height f g
    drawMotionRects width height n f' g'

/-- The camera simulator class: its only state is the frame counter. -/
structure SimpleCCTVCamera where
  frame_count : Nat
deriving DecidableEq, Repr

/-- `SimpleCCTVCamera.__init__`: the counter starts at 0. -/
def SimpleCCTVCamera.init : SimpleCCTVCamera := ⟨0⟩

/-- The JPEG byte buffer returned by `create_test_image`: `image.save(...,
format='JPEG')` into a fresh `BytesIO`.  Encoding is external; we model the
buffer as carrying the encoded frame. -/
structure JpegBuffer where
  encoded : Frame
deriving DecidableEq, Repr

/-- `SimpleCCTVCamera.create_test_image`, line by line: 640×480 darkgray
canvas; grid; three random motion rectangles; `try: font =
ImageFont.load_default() except: font = None`; camera-name text; timestamp
text; `self.frame_count += 1`; frame-counter text; REC ellipse and text;
JPEG encoding into a buffer.  A Python exception anywhere aborts the call
with the camera state as of that point; JPEG encoding failure is governed by
`env.jpegEncodeOk`. -/
def create_test_image (env : Env) (cam : SimpleCCTVCamera) (g : RNG) :
    Except String JpegBuffer × SimpleCCTVCamera × RNG :=
  let width := 640
  let height := 480
  let image : Frame := { width := width, height := height,
                         background := "darkgray", ops := [] }
  let image := { image with ops := image.ops ++ gridOps width height }
  let (image, g) := drawMotionRects width height 3 image g
  let font : Option Font :=
    match load_default env with
    | .ok ft => some ft
    | .error _ => none
  match drawText env image 10 10 "MOCK CCTV - CAMERA 01" "lime" font with
  | .error e => (.error e, cam, g)
  | .ok image =>
  match drawText env image 10 30 env.clock "lime" font with
  | .error e => (.error e, cam, g)
  | .ok image =>
  let cam := { cam with frame_count := cam.frame_count + 1 }
  match drawText env image 10 50 ("Frame: " ++ toString cam.frame_count) "lime" font with
  | .error e => (.error e, cam, g)
  | .ok image =>
  let image := { image with ops := image.ops ++ [DrawOp.ellipse (width - 50) 10 (width - 30) 30 "red"] }
  match drawText env image (width - 80) 12 "REC" "white" font with
  | .error e => (.error e, cam, g)
  | .ok image =>
  if env.jpegEncodeOk then (.ok ⟨image⟩, cam, g)
  else (.error "JPEG encoding failed", cam, g)

/-- An HTTP response produced by a route handler: status code, content type,
and a textual body.  Flask turns a returned string into `200 text/html` and a
returned dict into `200 application/json`. -/
structure HttpResponse where
  statusCode : Nat
  contentType : String
  bodyText : String
deriving DecidableEq, Repr

/-- The literal HTML page returned by the `home` route (the module-level
`html` string of `home()`), with `"` , `{`, `}` and `'` written as escapes. -/
def home_html : String :=
  "
    <!DOCTYPE html>
    <html>
    <head>
        <title>Mock CCTV Camera</title>
        <style>
            body \x7b 
                font-family: Arial, sans-serif; 
                max-width: 800px; 
                margin: 50px auto; 
                padding: 20px;
                background: #f0f0f0;
            \x7d
            h1 \x7b color: #333; \x7d
            .endpoint \x7b 
                background: white; 
                padding: 15px; 
                margin: 10px 0; 
                border-radius: 5px;
                box-shadow: 0 2px 5px rgba(0,0,0,0.1);
            \x7d
            a \x7b 
                color: #007bff; 
                text-decoration: none; 
                font-weight: bold;
            \x7d
            a:hover \x7b text-decoration: underline; \x7d
            img \x7b 
                max-width: 100%; 
                margin-top: 20px; 
                border: 2px solid #333;
                border-radius: 5px;
            \x7d
            code \x7b
                background: #f4f4f4;
                padding: 2px 5px;
                border-radius: 3px;
            \x7d
        </style>
    </head>
    <body>
        <h1>🎥 Mock CCTV Camera Server</h1>
        <p>This server simulates a CCTV camera for testing with Power Automate.</p>
        
        <h2>Available Endpoints:</h2>
        
        <div class=\"endpoint\">
            <h3>📸 Get Snapshot</h3>
            <p>Returns a JPEG image from the camera</p>
            <p>URL: <a href=\"/snapshot\" target=\"_blank\">http://localhost:5000/snapshot</a></p>
            <p>Method: <code>GET</code></p>
            <p>Returns: <code>image/jpeg</code></p>
        </div>
        
        <div class=\"endpoint\">
            <h3>📊 Get Camera Status</h3>
            <p>Returns JSON with camera information</p>
            <p>URL: <a href=\"/status\" target=\"_blank\">http://localhost:5000/status</a></p>
            <p>Method: <code>GET</code></p>
            <p>Returns: <code>application/json</code></p>
        </div>
        
        <h2>Current Snapshot:</h2>
        <img src=\"/snapshot\" alt=\"Camera Snapshot\" id=\"snapshot\">
        
        <script>
            // Auto-refresh image every 5 seconds
            setInterval(function() \x7b
                document.getElementById(\x27snapshot\x27).src = \x27/snapshot?\x27 + new Date().getTime();
            \x7d, 5000);
        </script>
        
        <h2>Power Automate Integration:</h2>
        <p>To use this in Power Automate:</p>
        <ol>
            <li>Use the HTTP action</li>
            <li>Set Method to GET</li>
            <li>Set URI to <code>http://localhost:5000/snapshot</code> or <code>http://YOUR_IP:5000/snapshot</code></li>
            <li>The response will contain the image data</li>
        </ol>
    </body>
    </html>
    "

/-- The `GET /` route handler `home()`.  Its body builds a string literal and
returns it; it never touches the module-level `camera` instance or the
`random` module, so we express it as a function of the full process state
(camera and random source) that ignores both. -/
def home (_cam : SimpleCCTVCamera) (_g : RNG) : HttpResponse :=
  { statusCode := 200, contentType := "text/html", bodyText := home_html }

/-- The `GET /snapshot` route handler `snapshot()`: calls
`camera.create_test_image()` and returns the buffer via
`send_file(mimetype='image/jpeg')`; an exception inside frame generation
propagates and the request fails, with whatever camera state the call left
behind. -/
def snapshot (env : Env) (cam : SimpleCCTVCamera) (g : RNG) :
    Except String JpegBuffer × SimpleCCTVCamera × RNG :=
  create_test_image env cam g

/-- The JSON object returned by the `status()` handler; it has exactly these
seven fields. -/
structure StatusJson where
  camera_id : String
  status : String
  timestamp : String
  frame_count : Nat
  resolution : String
  location : String
  camType : String
deriving DecidableEq, Repr

/-- The `GET /status` route handler `status()`: reads `camera.frame_count`
and `datetime.now().isoformat()` and returns the dict with its seven literal
keys (the source's `"type"` key is spelled `camType` here since `type` is a
Lean keyword).  The handler only reads the camera, so it returns the camera
state unchanged alongside the payload. -/
def status (cam : SimpleCCTVCamera) (env : Env) : StatusJson × SimpleCCTVCamera :=
  ({ camera_id := "MOCK-CAM-01"
   , status := "online"
   , timestamp := env.isoClock
   , frame_count := cam.frame_count
   , resolution := "640x480"
   , location := "Test Location"
   , camType := "Mock CCTV Camera" }, cam)

/-- Flask wraps the dict returned by `status()` as a `200 application/json`
response; the body is the serialised payload. -/
def statusResponse (cam : SimpleCCTVCamera) (env : Env) : HttpResponse :=
  { statusCode := 200, contentType := "application/json"
  , bodyText := reprStr (status cam env).1 }

/-- The arguments of the `app.run(...)` call in the `__main__` block. -/
structure FlaskRunConfig where
  host : String
  port : Nat
  debug : Bool
deriving DecidableEq, Repr

/-- `app.run(host='0.0.0.0', port=5000, debug=True)`: the literal run
configuration of the `__main__` block. -/
def app_run : FlaskRunConfig :=
  { host := "0.0.0.0", port := 5000, debug := true }

/-- The listening port as a function of an external port configuration
(command-line argument or environment variable).  The program reads no such
input anywhere: the `app.run` call passes the literal 5000, so the port the
code uses is 5000 regardless of any requested configuration. -/
def code_port (_requested : Option Nat) : Nat := app_run.port

/-- Modelled from the spec: "Server binds to all interfaces on a
configurable port (default 5000)" — the listening port a configurable server
would use: the configured value when one is supplied, 5000 otherwise.  This
definition follows the spec's words and exists only to be compared with
`code_port`. -/
def spec_configured_port (requested : Option Nat) : Nat :=
  requested.getD 5000

/-- Sequential server lifetime fragment: process a list of `/snapshot`
requests in order (each with its own environment), returning the list of
per-request outcomes and the final camera and random-source state. -/
def processSnapshots : List Env → SimpleCCTVCamera → RNG →
    List (Except String JpegBuffer) × SimpleCCTVCamera × RNG
  | [], cam, g => ([], cam, g)
  | env :: rest, cam, g =>
    let (res, cam', g') := snapshot env cam g
    let (ress, cam'', g'') := processSnapshots rest cam' g'
    (res :: ress, cam'', g'')

/-- `N` sequential `create_test_image` calls starting from a given camera
state, threading the random source; returns the final camera and source. -/
def seqCalls (env : Env) : Nat → SimpleCCTVCamera → RNG → SimpleCCTVCamera × RNG
  | 0, cam, g => (cam, g)
  | n + 1, cam, g =>
    let (_, cam', g') := create_test_image env cam g
    seqCalls env n cam' g'

/-- Per-thread progress through the statement `self.frame_count += 1`
(line 58).  CPython executes it as separate load and store bytecodes and may
switch threads between them, so we model it as two atomic micro-steps:
`pc = 0`: about to read the shared counter into a local; `pc = 1`: read done
(value in `loc`), about to store `loc + 1`; `pc = 2`: store done. -/
structure IncThread where
  pc : Nat
  loc : Nat
deriving DecidableEq, Repr

/-- Shared state of `K` threads concurrently executing the unsynchronized
`self.frame_count += 1`: the shared counter and each thread's progress. -/
structure ConcState where
  counter : Nat
  threads : List IncThread
deriving DecidableEq, Repr

/-- `K` concurrent `create_test_image` calls at their increment, counter
starting from 0, no thread yet begun. -/
def initConc (k : Nat) : ConcState :=
  { counter := 0, threads := List.replicate k { pc := 0, loc := 0 } }

/-- One scheduler step: thread `i` executes its next micro-step of
`self.frame_count += 1` (read, then write); a finished or absent thread
leaves the state unchanged. -/
def concStep (s : ConcState) (i : Nat) : ConcState :=
  match s.threads.get? i with
  | none => s
  | some t =>
    if t.pc = 0 then
      { s with threads := s.threads.set i { pc := 1, loc := s.counter } }
    else if t.pc = 1 then
      { counter := t.loc + 1, threads := s.threads.set i { pc := 2, loc := t.loc } }
    else s

/-- Run a schedule (a list of thread indices, each entry giving one
micro-step to that thread) from a state. -/
def runSched (sched : List Nat) (s : ConcState) : ConcState :=
  sched.foldl concStep s

/-- Whether every thread has completed its `self.frame_count += 1`. -/
def allDone (s : ConcState) : Bool :=
  s.threads.all (fun t => t.pc == 2)

/-- The canvas as it stands after `Image.new` and the grid loops: 640×480,
darkgray background, the grid lines drawn, nothing else. -/
def baseFrame : Frame :=
  { width := 640, height := 480, background := "darkgray", ops := gridOps 640 480 }

/-- The drawing operations of the frame carried by a `create_test_image`
outcome: the encoded frame's operations on success, nothing on failure. -/
def frameOps (res : Except String JpegBuffer) : List DrawOp :=
  match res with
  | .ok buf => buf.encoded.ops
  | .error _ => []

/-- Whether a drawing operation is a `draw.rectangle` call. -/
def isRect : DrawOp → Bool
  | .rectangle _ _ _ _ _ _ => true
  | _ => false

/-- The rectangle property claimed for the motion rectangles: width and
height (recovered as `x1 - x0` and `y1 - y0`) each in `[30, 100]`, the far
corner within the 640×480 canvas, every colour channel in `[100, 255]`, and
a white outline. -/
def rectOk : DrawOp → Bool
  | .rectangle x0 y0 x1 y1 (r, gr, b) outl =>
      decide (30 ≤ x1 - x0) && decide (x1 - x0 ≤ 100) && decide (x1 ≤ 640) &&
      decide (30 ≤ y1 - y0) && decide (y1 - y0 ≤ 100) && decide (y1 ≤ 480) &&
      decide (100 ≤ r) && decide (r ≤ 255) &&
      decide (100 ≤ gr) && decide (gr ≤ 255) &&
      decide (100 ≤ b) && decide (b ≤ 255) &&
      (outl == "white")
  | _ => false

/-- The rectangle operations drawn in a `create_test_image` outcome. -/
def rectOps (res : Except String JpegBuffer) : List DrawOp :=
  (frameOps res).filter isRect

/-- Whether a `/snapshot` outcome is a successful response (Flask returns the
bytes with `200 image/jpeg`) rather than a propagated exception. -/
def isOkResult : Except String JpegBuffer → Bool
  | .ok _ => true
  | .error _ => false

/-- A run environment in which everything works: fonts load and JPEG
encoding succeeds. -/
def goodEnv : Env :=
  { fontsAvailable := true, jpegEncodeOk := true
  , clock := "2026-10-12 00:00:00", isoClock := "2026-10-12T00:00:00" }

/-- A run environment in which font resources are unavailable
(`ImageFont.load_default()` raises). -/
def envNoFont : Env :=
  { fontsAvailable := false, jpegEncodeOk := true
  , clock := "2026-10-12 00:00:00", isoClock := "2026-10-12T00:00:00" }

/-- A run environment in which fonts load but JPEG encoding fails
(`image.save(..., format='JPEG')` raises). -/
def envNoEncode : Env :=
  { fontsAvailable := true, jpegEncodeOk := false
  , clock := "2026-10-12 00:00:00", isoClock := "2026-10-12T00:00:00" }

/-- A concrete random source: the all-zero stream. -/
def g0 : RNG := { stream := fun _ => 0, pos := 0 }

lemma cti_frame_count (env : Env) (cam : SimpleCCTVCamera) (g : RNG)
    (hf : env.fontsAvailable = true) :
    (create_test_image env cam g).2.1 = ⟨cam.frame_count + 1⟩ := by
  rcases hdm : drawMotionRects 640 480 3 baseFrame g with ⟨f1, g1⟩
  simp only [baseFrame] at hdm
  cases he : env.jpegEncodeOk <;>
    simp [create_test_image, drawText, load_default, hf, he, hdm]

lemma cti_font_fail (env : Env) (cam : SimpleCCTVCamera) (g : RNG)
    (hff : env.fontsAvailable = false) :
    (create_test_image env cam g).1 = .error "font resources unavailable" ∧
    (create_test_image env cam g).2.1 = cam := by
  rcases hdm : drawMotionRects 640 480 3 baseFrame g with ⟨f1, g1⟩
  simp only [baseFrame] at hdm
  simp [create_test_image, drawText, load_default, hff, hdm]

lemma cti_encode_fail (env : Env) (cam : SimpleCCTVCamera) (g : RNG)
    (hf : env.fontsAvailable = true) (hne : env.jpegEncodeOk = false) :
    (create_test_image env cam g).1 = .error "JPEG encoding failed" ∧
    (create_test_image env cam g).2.1 = ⟨cam.frame_count + 1⟩ := by
  rcases hdm : drawMotionRects 640 480 3 baseFrame g with ⟨f1, g1⟩
  simp only [baseFrame] at hdm
  simp [create_test_image, drawText, load_default, hf, hne, hdm]

lemma cti_frameOps (env : Env) (cam : SimpleCCTVCamera) (g : RNG)
    (hf : env.fontsAvailable = true) (he : env.jpegEncodeOk = true) :
    frameOps (create_test_image env cam g).1 =
      (drawMotionRects 640 480 3 baseFrame g).1.ops ++
      [DrawOp.text 10 10 "MOCK CCTV - CAMERA 01" "lime" ⟨0⟩,
       DrawOp.text 10 30 env.clock "lime" ⟨0⟩,
       DrawOp.text 10 50 ("Frame: " ++ toString (cam.frame_count + 1)) "lime" ⟨0⟩,
       DrawOp.ellipse 590 10 610 30 "red",
       DrawOp.text 560 12 "REC" "white" ⟨0⟩] := by
  rcases hdm : drawMotionRects 640 480 3 baseFrame g with ⟨f1, g1⟩
  simp only [baseFrame] at hdm
  simp [create_test_image, drawText, load_default, hf, he, hdm, frameOps]

lemma base_no_rects : baseFrame.ops.filter isRect = [] := by decide

lemma motion_filter_len : ∀ (n : Nat) (f : Frame) (g : RNG),
    (((drawMotionRects 640 480 n f g).1.ops).filter isRect).length =
      (f.ops.filter isRect).length + n := by
  intro n
  induction n with
  | zero => intro f g; simp [drawMotionRects]
  | succ k ih =>
    intro f g
    simp only [drawMotionRects, drawMotionRect, randint]
    rw [ih]
    simp [List.filter_append, isRect]
    omega

lemma motion_filter_all : ∀ (n : Nat) (f : Frame) (g : RNG),
    (f.ops.filter isRect).all rectOk = true →
    (((drawMotionRects 640 480 n f g).1.ops).filter isRect).all rectOk = true := by
  intro n
  induction n with
  | zero => intro f g h; simpa [drawMotionRects] using h
  | succ k ih =>
    intro f g h
    simp only [drawMotionRects, drawMotionRect, randint]
    apply ih
    simp [List.filter_append, List.all_append, isRect, h, rectOk]
    omega

lemma seqCalls_count (env : Env) (hf : env.fontsAvailable = true) :
    ∀ (n : Nat) (cam : SimpleCCTVCamera) (g : RNG),
      (seqCalls env n cam g).1.frame_count = cam.frame_count + n := by
  intro n
  induction n with
  | zero => intro cam g; simp [seqCalls]
  | succ k ih =>
    intro cam g
    rcases hc : create_test_image env cam g with ⟨res, cam', g'⟩
    have h2 := cti_frame_count env cam g hf
    rw [hc] at h2
    simp only at h2
    subst h2
    simp only [seqCalls, hc]
    rw [ih]
    show cam.frame_count + 1 + k = cam.frame_count + (k + 1)
    omega

lemma cti_monotone (env : Env) (cam : SimpleCCTVCamera) (g : RNG) :
    cam.frame_count ≤ (create_test_image env cam g).2.1.frame_count := by
  cases hf : env.fontsAvailable
  · rw [(cti_font_fail env cam g hf).2]
  · rw [cti_frame_count env cam g hf]
    exact Nat.le_succ _

lemma cti_isOk (env : Env) (cam : SimpleCCTVCamera) (g : RNG)
    (hf : env.fontsAvailable = true) (he : env.jpegEncodeOk = true) :
    isOkResult (create_test_image env cam g).1 = true := by
  have h := cti_frameOps env cam g hf he
  cases hr : (create_test_image env cam g).1 with
  | error e => rw [hr] at h; simp [frameOps] at h
  | ok buf => simp [isOkResult]

lemma processSnapshots_count : ∀ (envs : List Env) (cam : SimpleCCTVCamera) (g : RNG),
    (processSnapshots envs cam g).2.1.frame_count =
      cam.frame_count + (envs.filter (fun e => e.fontsAvailable)).length := by
  intro envs
  induction envs with
  | nil => intro cam g; simp [processSnapshots]
  | cons e rest ih =>
    intro cam g
    rcases hc : create_test_image e cam g with ⟨res, cam', g'⟩
    cases hf : e.fontsAvailable
    · have h := (cti_font_fail e cam g hf).2
      rw [hc] at h
      simp only at h
      subst h
      simp only [processSnapshots, snapshot, hc]
      rw [ih]
      simp [hf]
    · have h := cti_frame_count e cam g hf
      rw [hc] at h
      simp only at h
      subst h
      simp only [processSnapshots, snapshot, hc]
      rw [ih]
      simp [hf]
      omega

lemma processSnapshots_all_ok : ∀ (envs : List Env) (cam : SimpleCCTVCamera) (g : RNG),
    (∀ e ∈ envs, e.fontsAvailable = true ∧ e.jpegEncodeOk = true) →
    ((processSnapshots envs cam g).1.filter isOkResult).length = envs.length := by
  intro envs
  induction envs with
  | nil => intro cam g _; simp [processSnapshots]
  | cons e rest ih =>
    intro cam g hall
    rcases hc : create_test_image e cam g with ⟨res, cam', g'⟩
    have hok := cti_isOk e cam g (hall e (by simp)).1 (hall e (by simp)).2
    rw [hc] at hok
    simp only at hok
    simp only [processSnapshots, snapshot, hc]
    simp [List.filter_cons, hok, ih cam' g' (fun x hx => hall x (by simp [hx]))]

/-- C1: starting from a fresh camera (counter 0), after N sequential
`create_test_image` calls the `frame_count` field equals N: the counter
starts at 0 and every completed call increments it by exactly 1; moreover no
`create_test_image` call, in any environment (even a failing one), ever
decreases the counter. -/
theorem c1_sequential_frame_count (env : Env) (g : RNG)
    (hf : env.fontsAvailable = true) :
    (∀ N : Nat, (seqCalls env N SimpleCCTVCamera.init g).1.frame_count = N) ∧
    (∀ (e : Env) (cam : SimpleCCTVCamera) (g' : RNG),
      cam.frame_count ≤ (create_test_image e cam g').2.1.frame_count) := by
  constructor
  · intro N
    rw [seqCalls_count env hf]
    show 0 + N = N
    omega
  · intro e cam g'
    exact cti_monotone e cam g'

/-- Witness for C1: in the all-good environment with the zero random stream,
3 sequential calls from a fresh camera leave the counter at 3. -/
theorem c1_witness :
    goodEnv.fontsAvailable = true ∧
    (seqCalls goodEnv 3 SimpleCCTVCamera.init g0).1.frame_count = 3 :=
  ⟨rfl, (c1_sequential_frame_count goodEnv g0 rfl).1 3⟩

/-- C2: the increment on line 58 is the plain statement
`self.frame_count += 1`, with no lock and no atomic: modelled as its two
micro-steps (read the shared counter, then store the read value plus one),
the complete schedule read₀, read₁, write₀, write₁ of two concurrent calls
finishes both threads yet leaves the counter at 1 — a lost update — while
the serialized schedule leaves it at 2.  The claimed synchronization does
not exist in the code. -/
theorem c2_concurrent_lost_update :
    allDone (runSched [0, 1, 0, 1] (initConc 2)) = true ∧
    (runSched [0, 1, 0, 1] (initConc 2)).counter = 1 ∧
    (runSched [0, 0, 1, 1] (initConc 2)).counter = 2 := by decide

/-- C3: when font resources are unavailable, `create_test_image` does not
return a frame with the text omitted: the `except` arm sets `font = None`,
and the very first `draw.text` call then reloads the default font itself and
raises, so the request fails (and the counter, incremented only later, stays
at 0). -/
theorem c3_font_unavailable_request_fails :
    (create_test_image envNoFont SimpleCCTVCamera.init g0).1 =
      Except.error "font resources unavailable" ∧
    (create_test_image envNoFont SimpleCCTVCamera.init g0).2.1.frame_count = 0 := by
  have h := cti_font_fail envNoFont SimpleCCTVCamera.init g0 rfl
  exact ⟨h.1, by rw [h.2]; rfl⟩

/-- C4 counterexample: a single `/snapshot` request in an environment where
JPEG encoding fails produces a failed response, yet the counter ends at 1 —
the increment (line 58) happens before encoding (line 67), so a failing
request does contribute an increment, contradicting the claim that
`frame_count` equals the number of prior successful `/snapshot` calls. -/
theorem c4_counterexample :
    (processSnapshots [envNoEncode] SimpleCCTVCamera.init g0).2.1.frame_count = 1 ∧
    (processSnapshots [envNoEncode] SimpleCCTVCamera.init g0).1 =
      [Except.error "JPEG encoding failed"] := by
  have h := cti_encode_fail envNoEncode SimpleCCTVCamera.init g0 rfl rfl
  rcases hc : create_test_image envNoEncode SimpleCCTVCamera.init g0 with ⟨res, cam', g'⟩
  rw [hc] at h
  simp only at h
  constructor
  · simp only [processSnapshots, snapshot, hc]
    rw [h.2]
    rfl
  · simp only [processSnapshots, snapshot, hc]
    simp [h.1]

/-- C4 amended: `GET /status` reports a `frame_count` equal to the number of
prior `/snapshot` calls whose frame generation reached the counter increment
(a call aborted before the increment, e.g. by the font-dependent text
overlays, contributes nothing; a call failing after the increment, e.g.
during JPEG encoding, still contributes 1); when every call runs in a fully
working environment this equals the number of successful `/snapshot`
responses. -/
theorem c4_amended_increment_accounting (envs : List Env) (g : RNG) (envq : Env) :
    (status (processSnapshots envs SimpleCCTVCamera.init g).2.1 envq).1.frame_count =
      (envs.filter (fun e => e.fontsAvailable)).length ∧
    ((∀ e ∈ envs, e.fontsAvailable = true ∧ e.jpegEncodeOk = true) →
      ((processSnapshots envs SimpleCCTVCamera.init g).1.filter isOkResult).length =
        envs.length) := by
  constructor
  · show (processSnapshots envs SimpleCCTVCamera.init g).2.1.frame_count = _
    rw [processSnapshots_count]
    show 0 + _ = _
    omega
  · intro hall
    exact processSnapshots_all_ok envs SimpleCCTVCamera.init g hall

/-- Witness for the amended C4: two `/snapshot` requests in the all-good
environment leave `/status` reporting `frame_count = 2`, and both responses
are successful. -/
theorem c4_amended_witness :
    (status (processSnapshots [goodEnv, goodEnv] SimpleCCTVCamera.init g0).2.1
       goodEnv).1.frame_count = 2 ∧
    ((processSnapshots [goodEnv, goodEnv] SimpleCCTVCamera.init g0).1.filter
       isOkResult).length = 2 := by
  have h := c4_amended_increment_accounting [goodEnv, goodEnv] g0 goodEnv
  exact ⟨h.1, h.2 (by decide)⟩

/-- C5: every completed `create_test_image` call draws exactly 3 rectangle
operations, each with width and height in [30, 100], far corner within the
640×480 canvas (x + w ≤ 640, y + h ≤ 480), every colour channel in
[100, 255], and a white outline. -/
theorem c5_three_bounded_rectangles (env : Env) (cam : SimpleCCTVCamera) (g : RNG)
    (hf : env.fontsAvailable = true) (he : env.jpegEncodeOk = true) :
    (rectOps (create_test_image env cam g).1).length = 3 ∧
    (rectOps (create_test_image env cam g).1).all rectOk = true := by
  have h := cti_frameOps env cam g hf he
  unfold rectOps
  rw [h]
  have htx := motion_filter_len 3 baseFrame g
  rw [base_no_rects] at htx
  simp only [List.length_nil, Nat.zero_add] at htx
  constructor
  · simp [List.filter_append, isRect, htx]
  · rw [List.filter_append, List.all_append]
    have hm := motion_filter_all 3 baseFrame g (by rw [base_no_rects]; rfl)
    rw [hm]
    simp [isRect]

/-- Witness for C5: the all-good environment with the zero random stream
yields exactly 3 in-bounds white-outlined rectangles. -/
theorem c5_witness :
    goodEnv.fontsAvailable = true ∧ goodEnv.jpegEncodeOk = true ∧
    (rectOps (create_test_image goodEnv SimpleCCTVCamera.init g0).1).length = 3 ∧
    (rectOps (create_test_image goodEnv SimpleCCTVCamera.init g0).1).all rectOk = true := by
  have h := c5_three_bounded_rectangles goodEnv SimpleCCTVCamera.init g0 rfl rfl
  exact ⟨rfl, rfl, h.1, h.2⟩

/-- C6: a completed `create_test_image` call increments the counter exactly
once, and the rendered frame contains the text overlay
`"Frame: " ++ toString (old counter + 1)` at (10, 50) — the post-increment
value for that call. -/
theorem c6_post_increment_label (env : Env) (cam : SimpleCCTVCamera) (g : RNG)
    (hf : env.fontsAvailable = true) (he : env.jpegEncodeOk = true) :
    (create_test_image env cam g).2.1.frame_count = cam.frame_count + 1 ∧
    DrawOp.text 10 50 ("Frame: " ++ toString (cam.frame_count + 1)) "lime" ⟨0⟩ ∈
      frameOps (create_test_image env cam g).1 := by
  refine ⟨by rw [cti_frame_count env cam g hf], ?_⟩
  rw [cti_frameOps env cam g hf he]
  simp

/-- Witness for C6: the first call on a fresh camera renders "Frame: 1" and
leaves the counter at 1. -/
theorem c6_witness :
    goodEnv.fontsAvailable = true ∧ goodEnv.jpegEncodeOk = true ∧
    (create_test_image goodEnv SimpleCCTVCamera.init g0).2.1.frame_count = 1 ∧
    DrawOp.text 10 50 ("Frame: " ++ toString 1) "lime" ⟨0⟩ ∈
      frameOps (create_test_image goodEnv SimpleCCTVCamera.init g0).1 := by
  have h := c6_post_increment_label goodEnv SimpleCCTVCamera.init g0 rfl rfl
  exact ⟨rfl, rfl, h.1, h.2⟩

/-- C7: every `GET /status` response is `200 application/json` and its
payload has exactly the seven fields with `camera_id = "MOCK-CAM-01"`,
`status = "online"`, `timestamp` the current ISO time, `frame_count` the
camera's current counter, `resolution = "640x480"`,
`location = "Test Location"` and `type = "Mock CCTV Camera"`. -/
theorem c7_status_payload (cam : SimpleCCTVCamera) (env : Env) :
    (statusResponse cam env).statusCode = 200 ∧
    (statusResponse cam env).contentType = "application/json" ∧
    (status cam env).1 =
      { camera_id := "MOCK-CAM-01", status := "online",
        timestamp := env.isoClock, frame_count := cam.frame_count,
        resolution := "640x480", location := "Test Location",
        camType := "Mock CCTV Camera" } :=
  ⟨rfl, rfl, rfl⟩

/-- C8 counterexample: the port is the literal 5000 in `app.run`, so a
requested configuration of 8080 is not honoured — the code's port disagrees
with the spec's configurable-port behaviour at that input. -/
theorem c8_counterexample :
    code_port (some 8080) ≠ spec_configured_port (some 8080) := by decide

/-- C8 amended: the server binds to all interfaces (host `0.0.0.0`) on port
5000; the port is hard-coded — it coincides with the spec's default of 5000
(the no-configuration case agrees with the spec behaviour) but cannot be
configured. -/
theorem c8_fixed_port :
    app_run.host = "0.0.0.0" ∧ app_run.port = 5000 ∧
    (∀ c : Option Nat, code_port c = 5000) ∧
    code_port none = spec_configured_port none :=
  ⟨rfl, rfl, fun _ => rfl, rfl⟩

/-- C9: the `status()` handler only reads `camera.frame_count`: it returns
the camera state unchanged, and the reported `frame_count` is exactly the
camera's current counter. -/
theorem c9_status_no_side_effects (cam : SimpleCCTVCamera) (env : Env) :
    (status cam env).2 = cam ∧ (status cam env).1.frame_count = cam.frame_count :=
  ⟨rfl, rfl⟩

/-- C10: the `GET /` home page is deterministic and state-independent: for
any two camera states and any two states of the random source the returned
response is identical, a `200 text/html` page. -/
theorem c10_home_state_independent (cam1 cam2 : SimpleCCTVCamera) (g1 g2 : RNG) :
    home cam1 g1 = home cam2 g2 ∧ (home cam1 g1).statusCode = 200 ∧
    (home cam1 g1).contentType = "text/html" :=
  ⟨rfl, rfl, rfl⟩
